import Mathlib

/-!
Verification of the OntRemote SCPI protocol layer.

This file is a shallow embedding of the typed-value protocol implemented in
src/jdsu/OntRemote/Scpi.py and the event codec in src/jdsu/OntRemote/util.py.

Modelling conventions:
- the transport is a pure response function dev : String -> String (the
  receiveScpi primitive); sendScpi is a fire-and-forget command.  Every
  operation returns the list of wire interactions it performed;
- Python exceptions are an explicit error type (ScpiErr) threaded through
  Except; a raised exception carries no wire trace;
- Python floats are kept as their wire token (no claim depends on IEEE-754
  arithmetic, only on the integer / float / string classification);
- machine integers are Lean Int (Python ints are unbounded, so no wrap-around
  modelling is needed);
- Python str.split(',') is re-implemented over the character list, and
  int(token) / float(token) are modelled by explicit token grammars (sign and
  digits, with an optional point and exponent for float; the inf/nan literals
  are not modelled since every claim uses plain decimal tokens).
-/

/-- Python whitespace test used when int() and float() strip their argument. -/
def isPySpace (c : Char) : Bool := c == ' ' || c == '\t' || c == '\n' || c == '\r'

/-- Strip leading and trailing whitespace, as Python int() and float() do. -/
def stripPySpaces (cs : List Char) : List Char :=
  ((cs.dropWhile isPySpace).reverse.dropWhile isPySpace).reverse

/-- Decimal value of a digit string. -/
def digitsToNat (cs : List Char) : Nat :=
  cs.foldl (fun acc c => acc * 10 + (c.toNat - Char.toNat '0')) 0

/-- Parse a nonempty all-digit character list. -/
def parseDigits (cs : List Char) : Option Nat :=
  if cs ≠ [] ∧ cs.all Char.isDigit then some (digitsToNat cs) else none

/-- Python int(token): optional surrounding whitespace, optional sign, then
decimal digits.  Returns none exactly where Python raises ValueError. -/
def pyParseInt (s : String) : Option Int :=
  match stripPySpaces s.data with
  | '+' :: rest => (parseDigits rest).map Int.ofNat
  | '-' :: rest => (parseDigits rest).map (fun n => -(n : Int))
  | cs => (parseDigits cs).map Int.ofNat

/-- Mantissa of a Python float literal: digits, digits point digits, digits
point, or point digits (at least one digit overall). -/
def pyFloatMantissa (cs : List Char) : Bool :=
  let ds := cs.takeWhile Char.isDigit
  match cs.dropWhile Char.isDigit with
  | [] => !ds.isEmpty
  | '.' :: frac => (!ds.isEmpty || !frac.isEmpty) && frac.all Char.isDigit
  | _ => false

/-- Exponent part of a Python float literal (after the e or E). -/
def pyExponentDigits (cs : List Char) : Bool :=
  match cs with
  | '+' :: ds => !ds.isEmpty && ds.all Char.isDigit
  | '-' :: ds => !ds.isEmpty && ds.all Char.isDigit
  | ds => !ds.isEmpty && ds.all Char.isDigit

/-- Body of a Python float literal after the sign: mantissa with an optional
exponent clause. -/
def pyFloatBody (cs : List Char) : Bool :=
  match cs.dropWhile (fun c => !(c == 'e' || c == 'E')) with
  | [] => pyFloatMantissa cs
  | _ :: expPart =>
      pyFloatMantissa (cs.takeWhile (fun c => !(c == 'e' || c == 'E'))) &&
        pyExponentDigits expPart

/-- Python float(token) success predicate (inf/nan literals not modelled). -/
def pyFloatTok (s : String) : Bool :=
  match stripPySpaces s.data with
  | '+' :: rest => pyFloatBody rest
  | '-' :: rest => pyFloatBody rest
  | cs => pyFloatBody cs

/-- Test used all over Scpi.py: value.find('.') > -1. -/
def hasDot (s : String) : Bool := s.data.any (fun c => c == '.')

/-- Python str.split(sep) for a single-character separator: accumulator-based
scan; splitting the empty string gives one empty field. -/
def splitOnCharAux (sep : Char) : List Char → List Char → List String
  | [], acc => [String.mk acc.reverse]
  | c :: rest, acc =>
      if c == sep then String.mk acc.reverse :: splitOnCharAux sep rest []
      else splitOnCharAux sep rest (c :: acc)

/-- Python str.split(sep) over a String. -/
def splitOnChar (sep : Char) (s : String) : List String := splitOnCharAux sep s.data []

/-- Python s[1:-1]: drop the first and the last character. -/
def stripFirstLast (s : String) : String := String.mk s.data.tail.dropLast

/-- Python value.replace('"', '""'), specialised to its single-character
pattern: every quote is doubled (used by Parameter._setScpiString). -/
def doubleQuotes (cs : List Char) : List Char :=
  cs.flatMap (fun c => if c = '"' then ['"', '"'] else [c])

/-- Python value.replace('""', '"'): the left-to-right non-overlapping scan
that collapses each doubled quote to one (used by Parameter._getString). -/
def collapseQuotes : List Char → List Char
  | [] => []
  | [c] => [c]
  | c1 :: c2 :: rest =>
      if c1 = '"' ∧ c2 = '"' then '"' :: collapseQuotes rest
      else c1 :: collapseQuotes (c2 :: rest)

/-- Wire form of an SCPI string written by Parameter._setScpiString: double
every internal quote and wrap the result in quotes. -/
def scpiQuote (s : String) : String :=
  String.mk ('"' :: (doubleQuotes s.data ++ ['"']))

/-- Reader transform of Parameter._getString: if the token starts with a
quote, drop the first and last character and collapse doubled quotes. -/
def scpiUnquote (v : String) : String :=
  match v.data with
  | '"' :: rest => String.mk (collapseQuotes rest.dropLast)
  | _ => v

/-- Python runtime values flowing through the SCPI layer.  A float is kept as
its wire token: no claim depends on IEEE-754 arithmetic. -/
inductive PyVal
  | int (n : Int)
  | float (tok : String)
  | str (s : String)
deriving DecidableEq, Repr

/-- Python str(value) as used when a value is spliced into a command. -/
def PyVal.toPyStr : PyVal → String
  | PyVal.int n => toString n
  | PyVal.float tok => tok
  | PyVal.str s => s

/-- Exceptions of the SCPI layer.  OntRemoteError raise sites are split by
message so theorems can name the precise fault; valueError / indexError /
typeError are the uncaught Python builtin exceptions. -/
inductive ScpiErr
  | wrongTokenCount
  | badValidFlag
  | badItemFlag
  | inconsistentLength
  | notStored
  | unexpectedEventCount
  | unknownFormat (fid : Nat)
  | keyError
  | deviceFault
  | valueError
  | indexError
  | typeError
deriving DecidableEq, Repr

/-- The spec calls both two-token grammar faults MalformedResult. -/
def ScpiErr.isMalformedResult : ScpiErr → Bool
  | ScpiErr.wrongTokenCount => true
  | ScpiErr.badValidFlag => true
  | _ => false

/-- One wire interaction: a round-trip query (receiveScpi) or a
fire-and-forget command (sendScpi). -/
inductive Interaction
  | query (cmd response : String)
  | command (cmd : String)
deriving DecidableEq, Repr

/-- The numeric classification shared by _configureType, _getNumeric and
_decodeResult: a token with a point is parsed as float, otherwise as int;
none is Python's ValueError. -/
def classifyNumericTok (v : String) : Option PyVal :=
  if hasDot v then
    if pyFloatTok v then some (PyVal.float v) else none
  else
    match pyParseInt v with
    | some n => some (PyVal.int n)
    | none => none

/-!  Scalar Parameter (Scpi.py lines 30-211).  The lazy self-rebinding
dispatch (set/get reassigned inside _configureType) is modelled as a tagged
binding held in the endpoint state, exactly as spec section 9 prescribes. -/

/-- Python type of a resolved parameter. -/
inductive PType
  | pint
  | pfloat
  | pstr
deriving DecidableEq, Repr

/-- Resolved strategy of a scalar endpoint: its Python type plus whether the
write side was rebound to _setScpiString (quoted-string writes). -/
structure WireBinding where
  ptype : PType
  stringSet : Bool
deriving DecidableEq, Repr

/-- Immutable construction data of a Parameter: the SCPI name (with trailing
question marks already stripped) and the opcQuery flag. -/
structure ParamCfg where
  name : String
  opcQuery : Bool
deriving DecidableEq, Repr

/-- Mutable state of a Parameter: the resolved binding (None until the first
get or set classifies a response) and the stored snapshot. -/
structure ParamState where
  binding : Option WireBinding
  storedValue : Option PyVal
deriving DecidableEq, Repr

/-- State of a freshly constructed Parameter: type unresolved, no snapshot. -/
def Parameter.init : ParamState := { binding := none, storedValue := none }

/-- Write transmission: with opcQuery the command carries ;*OPC? and is sent
as a round trip, otherwise it is fire-and-forget. -/
def txInteraction (opcQuery : Bool) (dev : String → String) (cmd : String) : Interaction :=
  if opcQuery then Interaction.query cmd (dev cmd) else Interaction.command cmd

/-- Command text of a scalar write: name, blank, payload, and the *OPC?
suffix when acknowledged writes are configured. -/
def Parameter.writeCmd (cfg : ParamCfg) (payload : String) : String :=
  cfg.name ++ " " ++ payload ++ (if cfg.opcQuery then ";*OPC?" else "")

/-- Classification step of Parameter._configureType: numeric tokens bind the
numeric strategies; on ValueError a token starting with a quote binds the
quoted-string write strategy; an empty response hits Python's IndexError. -/
def configClassify (v : String) : Except ScpiErr (PyVal × WireBinding) :=
  if hasDot v then
    if pyFloatTok v then Except.ok (PyVal.float v, { ptype := PType.pfloat, stringSet := false })
    else configClassifyString v
  else
    match pyParseInt v with
    | some n => Except.ok (PyVal.int n, { ptype := PType.pint, stringSet := false })
    | none => configClassifyString v
where
  /-- ValueError branch of _configureType. -/
  configClassifyString (v : String) : Except ScpiErr (PyVal × WireBinding) :=
    match v.data with
    | [] => Except.error ScpiErr.indexError
    | c :: _ => Except.ok (PyVal.str v, { ptype := PType.pstr, stringSet := c = '"' })

/-- Parameter._configureType: issue the value query, classify the response
and report the new binding together with the performed interaction. -/
def Parameter.configureType (cfg : ParamCfg) (dev : String → String) :
    Except ScpiErr (PyVal × WireBinding × List Interaction) :=
  match configClassify (dev (cfg.name ++ "?")) with
  | Except.error e => Except.error e
  | Except.ok (val, b) =>
      Except.ok (val, b, [Interaction.query (cfg.name ++ "?") (dev (cfg.name ++ "?"))])

/-- Parameter._getString: read the value and strip one layer of SCPI string
quoting; an empty response raises IndexError. -/
def Parameter.getString (cfg : ParamCfg) (dev : String → String) : Except ScpiErr PyVal :=
  match (dev (cfg.name ++ "?")).data with
  | [] => Except.error ScpiErr.indexError
  | _ => Except.ok (PyVal.str (scpiUnquote (dev (cfg.name ++ "?"))))

/-- Parameter._getNumeric: read the value and convert it with the shared
numeric classification; a non-numeric response raises ValueError. -/
def Parameter.getNumeric (cfg : ParamCfg) (dev : String → String) : Except ScpiErr PyVal :=
  match classifyNumericTok (dev (cfg.name ++ "?")) with
  | some val => Except.ok val
  | none => Except.error ScpiErr.valueError

/-- Display transform applied by Parameter.get to the value returned from
_configureType: quoted strings are unquoted. -/
def Parameter.displayVal : PyVal → PyVal
  | PyVal.str v => PyVal.str (scpiUnquote v)
  | val => val

/-- Resolved write dispatch: _setScpiString quotes the payload (failing with
Python's AttributeError, modelled as typeError, on a non-string value);
_set splices str(value) directly. -/
def Parameter.setResolved (cfg : ParamCfg) (dev : String → String) (b : WireBinding)
    (value : PyVal) : Except ScpiErr (List Interaction) :=
  if b.stringSet then
    match value with
    | PyVal.str sv =>
        Except.ok [txInteraction cfg.opcQuery dev (Parameter.writeCmd cfg (scpiQuote sv))]
    | _ => Except.error ScpiErr.typeError
  else
    Except.ok [txInteraction cfg.opcQuery dev (Parameter.writeCmd cfg (PyVal.toPyStr value))]

/-- Parameter.get: an unresolved endpoint classifies the response and binds
its strategies; a resolved endpoint dispatches to the bound reader. -/
def Parameter.getOp (cfg : ParamCfg) (dev : String → String) (s : ParamState) :
    Except ScpiErr (PyVal × ParamState × List Interaction) :=
  match s.binding with
  | none =>
      match Parameter.configureType cfg dev with
      | Except.error e => Except.error e
      | Except.ok (val, b, tr) =>
          Except.ok (Parameter.displayVal val, { s with binding := some b }, tr)
  | some b =>
      match (if b.ptype = PType.pstr then Parameter.getString cfg dev
             else Parameter.getNumeric cfg dev) with
      | Except.error e => Except.error e
      | Except.ok val =>
          Except.ok (val, s, [Interaction.query (cfg.name ++ "?") (dev (cfg.name ++ "?"))])

/-- Parameter.set: an unresolved endpoint first resolves the type with the
value query, then replays the write against the bound strategy; a resolved
endpoint writes directly. -/
def Parameter.setOp (cfg : ParamCfg) (dev : String → String) (s : ParamState)
    (value : PyVal) : Except ScpiErr (ParamState × List Interaction) :=
  match s.binding with
  | none =>
      match Parameter.configureType cfg dev with
      | Except.error e => Except.error e
      | Except.ok (_, b, tr) =>
          match Parameter.setResolved cfg dev b value with
          | Except.error e => Except.error e
          | Except.ok wtr => Except.ok ({ s with binding := some b }, tr ++ wtr)
  | some b =>
      match Parameter.setResolved cfg dev b value with
      | Except.error e => Except.error e
      | Except.ok wtr => Except.ok (s, wtr)

/-- Parameter.store: snapshot the value read by get. -/
def Parameter.storeOp (cfg : ParamCfg) (dev : String → String) (s : ParamState) :
    Except ScpiErr (ParamState × List Interaction) :=
  match Parameter.getOp cfg dev s with
  | Except.error e => Except.error e
  | Except.ok (val, s1, tr) => Except.ok ({ s1 with storedValue := some val }, tr)

/-- Parameter.restore: without a prior store this raises the NotStored error
before touching the device; otherwise it replays the snapshot through set. -/
def Parameter.restoreOp (cfg : ParamCfg) (dev : String → String) (s : ParamState) :
    Except ScpiErr (ParamState × List Interaction) :=
  match s.storedValue with
  | none => Except.error ScpiErr.notStored
  | some val => Parameter.setOp cfg dev s val

/-- Public operations of a scalar Parameter. -/
inductive ParamOp
  | get
  | set (value : PyVal)
  | store
  | restore
deriving DecidableEq, Repr

/-- One public call on a Parameter. -/
def Parameter.step (cfg : ParamCfg) (dev : String → String) (s : ParamState) :
    ParamOp → Except ScpiErr (ParamState × List Interaction)
  | ParamOp.get =>
      match Parameter.getOp cfg dev s with
      | Except.error e => Except.error e
      | Except.ok (_, s1, tr) => Except.ok (s1, tr)
  | ParamOp.set value => Parameter.setOp cfg dev s value
  | ParamOp.store => Parameter.storeOp cfg dev s
  | ParamOp.restore => Parameter.restoreOp cfg dev s

/-- A sequence of public calls on a Parameter; the first raised exception
aborts the run, as in Python. -/
def Parameter.run (cfg : ParamCfg) (dev : String → String) (s : ParamState) :
    List ParamOp → Except ScpiErr (ParamState × List Interaction)
  | [] => Except.ok (s, [])
  | op :: ops =>
      match Parameter.step cfg dev s op with
      | Except.error e => Except.error e
      | Except.ok (s1, tr1) =>
          match Parameter.run cfg dev s1 ops with
          | Except.error e => Except.error e
          | Except.ok (s2, tr2) => Except.ok (s2, tr1 ++ tr2)

/-!  Scalar result decode (Scpi.py _decodeResult, lines 485-507) and the
Result class built on it (lines 510-551). -/

/-- Value branch of _decodeResult (and of ExtendedBlockResult._readValues,
whose lines 784-792 are the identical code): numeric classification first; on
ValueError a token starting with a quote loses its first and last character
(note: doubled quotes are NOT collapsed here); any other token is returned as
the raw string; an empty token raises IndexError. -/
def decodeValueToken (value : String) : Except ScpiErr PyVal :=
  match classifyNumericTok value with
  | some val => Except.ok val
  | none =>
      match value.data with
      | [] => Except.error ScpiErr.indexError
      | '"' :: _ => Except.ok (PyVal.str (stripFirstLast value))
      | _ => Except.ok (PyVal.str value)

/-- Core of _decodeResult over the comma-split tokens: exactly two tokens are
required; the first must parse as an integer (the valid flag), and the result
is valid exactly when that integer equals 1; only a valid result carries a
value. -/
def decodeResultToks (toks : List String) : Except ScpiErr (Bool × Option PyVal) :=
  match toks with
  | [t0, t1] =>
      match pyParseInt t0 with
      | none => Except.error ScpiErr.badValidFlag
      | some k =>
          if k = 1 then
            match decodeValueToken t1 with
            | Except.error e => Except.error e
            | Except.ok val => Except.ok (true, some val)
          else Except.ok (false, none)
  | _ => Except.error ScpiErr.wrongTokenCount
where
  unused : Unit := ()

/-- _decodeResult on the raw response line. -/
def decodeResult (response : String) : Except ScpiErr (Bool × Option PyVal) :=
  decodeResultToks (splitOnChar ',' response)

/-- Result.get: query the result and return the decoded value, or None when
the valid flag is not 1. -/
def Result.get (nameArg : String) (dev : String → String) :
    Except ScpiErr (Option PyVal × List Interaction) :=
  match decodeResult (dev (nameArg ++ "?")) with
  | Except.error e => Except.error e
  | Except.ok (valid, val) =>
      Except.ok (if valid then val else none,
        [Interaction.query (nameArg ++ "?") (dev (nameArg ++ "?"))])

/-!  BlockParameter (Scpi.py lines 214-419).  As for Parameter, the
self-rebinding set/_parseValues slots are modelled as a tagged binding. -/

/-- Value-list strategy bound by BlockParameter._configureType. -/
inductive BParse
  | numeric
  | strings
  | discrete
deriving DecidableEq, Repr

/-- BlockParameter._configureType(item): numeric tokens bind the numeric
parser; on ValueError a leading quote binds the quoted-string strategies,
anything else the discrete (identity) parser; an empty item raises
IndexError. -/
def blockConfigClassify (item : String) : Except ScpiErr BParse :=
  if hasDot item then
    if pyFloatTok item then Except.ok BParse.numeric else blockClassifyString item
  else
    match pyParseInt item with
    | some _ => Except.ok BParse.numeric
    | none => blockClassifyString item
where
  /-- ValueError branch of BlockParameter._configureType. -/
  blockClassifyString (item : String) : Except ScpiErr BParse :=
    match item.data with
    | [] => Except.error ScpiErr.indexError
    | '"' :: _ => Except.ok BParse.strings
    | _ => Except.ok BParse.discrete

/-- All tokens as Python ints, or the ValueError position. -/
def allInts : List String → Option (List Int)
  | [] => some []
  | v :: rest =>
      match pyParseInt v, allInts rest with
      | some n, some ns => some (n :: ns)
      | _, _ => none

/-- BlockParameter._parseNumericValues: the first token decides float or int,
then every token is converted; a failing conversion raises ValueError. -/
def parseNumericValues (vl : List String) : Except ScpiErr (List PyVal) :=
  match vl with
  | [] => Except.error ScpiErr.indexError
  | v0 :: _ =>
      if hasDot v0 then
        if vl.all pyFloatTok then Except.ok (vl.map PyVal.float)
        else Except.error ScpiErr.valueError
      else
        match allInts vl with
        | some ns => Except.ok (ns.map PyVal.int)
        | none => Except.error ScpiErr.valueError

/-- Resolved value-list dispatch of a BlockParameter: discrete keeps the
tokens, strings strips one layer of quoting per element (no quote collapsing,
per _parseStringValues), numeric converts elementwise. -/
def parseValuesResolved (b : BParse) (vl : List String) : Except ScpiErr (List PyVal) :=
  match b with
  | BParse.discrete => Except.ok (vl.map PyVal.str)
  | BParse.strings => Except.ok (vl.map (fun item => PyVal.str (stripFirstLast item)))
  | BParse.numeric => parseNumericValues vl

/-- Immutable construction data of a BlockParameter (name already stripped of
its trailing :BLOC node, as done once in __init__). -/
structure BlockCfg where
  name : String
  opcQuery : Bool
deriving DecidableEq, Repr

/-- Mutable state of a BlockParameter. -/
structure BlockState where
  binding : Option BParse
  storedValue : Option (List PyVal)
deriving DecidableEq, Repr

/-- State of a freshly constructed BlockParameter. -/
def BlockParameter.init : BlockState := { binding := none, storedValue := none }

/-- Per-element quoting of BlockParameter._setScpiString: a quote is added in
front or behind only where the element does not already carry one; an empty
element raises IndexError, a non-string Python value a TypeError. -/
def quoteElement (item : String) : Except ScpiErr String :=
  match item.data with
  | [] => Except.error ScpiErr.indexError
  | c :: _ =>
      Except.ok ((if c = '"' then "" else "\"") ++ item ++
        (if item.data.getLast? = some '"' then "" else "\""))

/-- Quote every element of a vector string write. -/
def quoteElements : List PyVal → Except ScpiErr (List String)
  | [] => Except.ok []
  | PyVal.str sv :: rest =>
      match quoteElement sv with
      | Except.error e => Except.error e
      | Except.ok q =>
          match quoteElements rest with
          | Except.error e => Except.error e
          | Except.ok qs => Except.ok (q :: qs)
  | _ :: _ => Except.error ScpiErr.typeError

/-- Command text of a vector write: name, blank, index, count and the
comma-joined payload, plus the *OPC? suffix when configured. -/
def BlockParameter.writeCmd (cfg : BlockCfg) (index : Int) (payloads : List String) : String :=
  cfg.name ++ " " ++ toString index ++ "," ++ toString payloads.length ++
    (payloads.foldl (fun acc v => acc ++ "," ++ v) "") ++
    (if cfg.opcQuery then ";*OPC?" else "")

/-- Resolved write dispatch of a BlockParameter. -/
def BlockParameter.setResolved (cfg : BlockCfg) (dev : String → String) (b : BParse)
    (index : Int) (values : List PyVal) : Except ScpiErr (List Interaction) :=
  if b = BParse.strings then
    match quoteElements values with
    | Except.error e => Except.error e
    | Except.ok payloads =>
        Except.ok [txInteraction cfg.opcQuery dev (BlockParameter.writeCmd cfg index payloads)]
  else
    Except.ok [txInteraction cfg.opcQuery dev
      (BlockParameter.writeCmd cfg index (values.map PyVal.toPyStr))]

/-- BlockParameter.set: an unresolved endpoint probes the type with a
windowed read of the target range, classifies the first token of the reply,
then replays the write with the bound strategy. -/
def BlockParameter.setOp (cfg : BlockCfg) (dev : String → String) (s : BlockState)
    (index : Int) (values : List PyVal) : Except ScpiErr (BlockState × List Interaction) :=
  match s.binding with
  | some b =>
      match BlockParameter.setResolved cfg dev b index values with
      | Except.error e => Except.error e
      | Except.ok wtr => Except.ok (s, wtr)
  | none =>
      match blockConfigClassify (splitOnChar ','
          (dev (cfg.name ++ "? " ++ toString index ++ "," ++ toString values.length))).headI with
      | Except.error e => Except.error e
      | Except.ok b =>
          match BlockParameter.setResolved cfg dev b index values with
          | Except.error e => Except.error e
          | Except.ok wtr =>
              Except.ok ({ s with binding := some b },
                Interaction.query
                  (cfg.name ++ "? " ++ toString index ++ "," ++ toString values.length)
                  (dev (cfg.name ++ "? " ++ toString index ++ "," ++ toString values.length))
                :: wtr)

/-- Query text of BlockParameter.get: the whole-block query when no length is
given, else the windowed query. -/
def BlockParameter.cmdFor (cfg : BlockCfg) (index : Int) : Option Int → String
  | none => cfg.name ++ ":BLOC?"
  | some len => cfg.name ++ "? " ++ toString index ++ "," ++ toString len

/-- Parse the token list through the current binding; the default
_parseValues (first call) classifies the first token and rebinds. -/
def BlockParameter.parseWithState (s : BlockState) (toks : List String) :
    Except ScpiErr (List PyVal × BlockState) :=
  match s.binding with
  | some b =>
      match parseValuesResolved b toks with
      | Except.error e => Except.error e
      | Except.ok vals => Except.ok (vals, s)
  | none =>
      match blockConfigClassify toks.headI with
      | Except.error e => Except.error e
      | Except.ok b =>
          match parseValuesResolved b toks with
          | Except.error e => Except.error e
          | Except.ok vals => Except.ok (vals, { s with binding := some b })

/-- BlockParameter.get.  Reading to the end with a nonzero index slices the
full response client-side; when the slice is empty the source reissues a
1-element windowed query purely to provoke the instrument's own out-of-range
fault (lines 271-274), modelled as deviceFault since the model's device never
faults. -/
def BlockParameter.getOp (cfg : BlockCfg) (dev : String → String) (s : BlockState)
    (index : Int) (length? : Option Int) :
    Except ScpiErr (List PyVal × BlockState × List Interaction) :=
  let cmd := BlockParameter.cmdFor cfg index length?
  let toks := splitOnChar ',' (dev cmd)
  if length? = none ∧ 0 < index then
    if (toks.drop index.toNat).isEmpty then Except.error ScpiErr.deviceFault
    else
      match BlockParameter.parseWithState s (toks.drop index.toNat) with
      | Except.error e => Except.error e
      | Except.ok (vals, s1) => Except.ok (vals, s1, [Interaction.query cmd (dev cmd)])
  else
    match BlockParameter.parseWithState s toks with
    | Except.error e => Except.error e
    | Except.ok (vals, s1) => Except.ok (vals, s1, [Interaction.query cmd (dev cmd)])

/-- BlockParameter.store: snapshot the whole block. -/
def BlockParameter.storeOp (cfg : BlockCfg) (dev : String → String) (s : BlockState) :
    Except ScpiErr (BlockState × List Interaction) :=
  match BlockParameter.getOp cfg dev s 0 none with
  | Except.error e => Except.error e
  | Except.ok (vals, s1, tr) => Except.ok ({ s1 with storedValue := some vals }, tr)

/-- BlockParameter.restore: raises NotStored before any device traffic when
no snapshot exists; otherwise rewrites the snapshot from index 0. -/
def BlockParameter.restoreOp (cfg : BlockCfg) (dev : String → String) (s : BlockState) :
    Except ScpiErr (BlockState × List Interaction) :=
  match s.storedValue with
  | none => Except.error ScpiErr.notStored
  | some vals => BlockParameter.setOp cfg dev s 0 vals

/-- Public operations of a BlockParameter. -/
inductive BlockOp
  | get (index : Int) (length? : Option Int)
  | set (index : Int) (values : List PyVal)
  | store
  | restore
deriving DecidableEq, Repr

/-- One public call on a BlockParameter. -/
def BlockParameter.step (cfg : BlockCfg) (dev : String → String) (s : BlockState) :
    BlockOp → Except ScpiErr (BlockState × List Interaction)
  | BlockOp.get index length? =>
      match BlockParameter.getOp cfg dev s index length? with
      | Except.error e => Except.error e
      | Except.ok (_, s1, tr) => Except.ok (s1, tr)
  | BlockOp.set index values => BlockParameter.setOp cfg dev s index values
  | BlockOp.store => BlockParameter.storeOp cfg dev s
  | BlockOp.restore => BlockParameter.restoreOp cfg dev s

/-- A sequence of public calls on a BlockParameter. -/
def BlockParameter.run (cfg : BlockCfg) (dev : String → String) (s : BlockState) :
    List BlockOp → Except ScpiErr (BlockState × List Interaction)
  | [] => Except.ok (s, [])
  | op :: ops =>
      match BlockParameter.step cfg dev s op with
      | Except.error e => Except.error e
      | Except.ok (s1, tr1) =>
          match BlockParameter.run cfg dev s1 ops with
          | Except.error e => Except.error e
          | Except.ok (s2, tr2) => Except.ok (s2, tr1 ++ tr2)

/-!  BlockResult (Scpi.py lines 554-667). -/

/-- Query text of BlockResult.get. -/
def BlockResult.cmdFor (nameArg : String) (index : Int) : Option Int → String
  | none => nameArg ++ ":BLOC?"
  | some len => nameArg ++ "? " ++ toString index ++ "," ++ toString len

/-- Value conversion of BlockResult._readValues (lines 651-664): the first
token decides float or int for the whole list; on ValueError a leading quote
on the first token makes every token lose its first and last character,
otherwise the raw tokens are kept. -/
def blockParseTokens : List String → Except ScpiErr (List PyVal)
  | [] => Except.ok []
  | v0 :: rest =>
      if hasDot v0 then
        if (v0 :: rest).all pyFloatTok then Except.ok ((v0 :: rest).map PyVal.float)
        else blockStringFallback (v0 :: rest)
      else
        match allInts (v0 :: rest) with
        | some ns => Except.ok (ns.map PyVal.int)
        | none => blockStringFallback (v0 :: rest)
where
  /-- ValueError branch: strip SCPI string delimiters when present. -/
  blockStringFallback : List String → Except ScpiErr (List PyVal)
    | [] => Except.error ScpiErr.indexError
    | v0 :: rest =>
        match v0.data with
        | [] => Except.error ScpiErr.indexError
        | '"' :: _ => Except.ok ((v0 :: rest).map (fun item => PyVal.str (stripFirstLast item)))
        | _ => Except.ok ((v0 :: rest).map PyVal.str)

/-- BlockResult._readValues over the comma-split tokens: the leading token
must parse as an integer count; a negative count is the invalid envelope and
yields (false, empty); a nonnegative count must equal the number of remaining
tokens or the inconsistent-length fault is raised; otherwise the tokens are
converted. -/
def BlockResult.readValuesToks (toks : List String) : Except ScpiErr (Bool × List PyVal) :=
  match toks with
  | [] => Except.error ScpiErr.indexError
  | c0 :: rest =>
      match pyParseInt c0 with
      | none => Except.error ScpiErr.badValidFlag
      | some count =>
          if count > -1 then
            if count ≠ (rest.length : Int) then Except.error ScpiErr.inconsistentLength
            else
              match blockParseTokens rest with
              | Except.error e => Except.error e
              | Except.ok vals => Except.ok (true, vals)
          else Except.ok (false, [])

/-- BlockResult.get: an invalid envelope returns None; a valid whole-block
read with a nonzero index is sliced client-side, and an empty slice makes the
source reissue a 1-element windowed query to provoke the instrument's own
out-of-range fault (lines 592-595), modelled as deviceFault. -/
def BlockResult.get (nameArg : String) (dev : String → String) (index : Int)
    (length? : Option Int) : Except ScpiErr (Option (List PyVal) × List Interaction) :=
  let cmd := BlockResult.cmdFor nameArg index length?
  match BlockResult.readValuesToks (splitOnChar ',' (dev cmd)) with
  | Except.error e => Except.error e
  | Except.ok (valid, vals) =>
      if valid then
        if length? = none ∧ 0 < index then
          if (vals.drop index.toNat).isEmpty then Except.error ScpiErr.deviceFault
          else Except.ok (some (vals.drop index.toNat), [Interaction.query cmd (dev cmd)])
        else Except.ok (some vals, [Interaction.query cmd (dev cmd)])
      else Except.ok (none, [Interaction.query cmd (dev cmd)])

/-!  ExtendedBlockResult (Scpi.py lines 670-796). -/

/-- Query text of ExtendedBlockResult.get. -/
def ExtendedBlockResult.cmdFor (nameArg : String) (index : Int) : Option Int → String
  | none => nameArg ++ ":EBLOC?"
  | some len => nameArg ++ ":ERANG? " ++ toString index ++ "," ++ toString len

/-- Flag/value pair loop of ExtendedBlockResult._readValues (lines 775-795):
for each of count pairs the flag must parse as an integer; a pair whose flag
equals 1 classifies its value token, any other integer flag yields an absent
element; running past the token list is Python's IndexError. -/
def ExtendedBlockResult.decodePairs : Nat → List String → Except ScpiErr (List (Option PyVal))
  | 0, _ => Except.ok []
  | n + 1, flag :: value :: rest =>
      match pyParseInt flag with
      | none => Except.error ScpiErr.badItemFlag
      | some k =>
          match (if k = 1 then
                   match decodeValueToken value with
                   | Except.error e => Except.error e
                   | Except.ok v => Except.ok (some v)
                 else Except.ok none) with
          | Except.error e => Except.error e
          | Except.ok v =>
              match ExtendedBlockResult.decodePairs n rest with
              | Except.error e => Except.error e
              | Except.ok tail => Except.ok (v :: tail)
  | _ + 1, _ => Except.error ScpiErr.indexError

/-- ExtendedBlockResult._readValues over the comma-split tokens: integer
count (negative means invalid envelope, giving (false, empty)); a nonnegative
count must equal the integer half of the remaining token number or the
inconsistent-length fault is raised; otherwise count flag/value pairs are
decoded. -/
def ExtendedBlockResult.readValuesToks (toks : List String) :
    Except ScpiErr (Bool × List (Option PyVal)) :=
  match toks with
  | [] => Except.error ScpiErr.indexError
  | c0 :: rest =>
      match pyParseInt c0 with
      | none => Except.error ScpiErr.badValidFlag
      | some count =>
          if count > -1 then
            if count ≠ ((rest.length / 2 : Nat) : Int) then
              Except.error ScpiErr.inconsistentLength
            else if rest.isEmpty then Except.ok (true, [])
            else
              match ExtendedBlockResult.decodePairs count.toNat rest with
              | Except.error e => Except.error e
              | Except.ok vals => Except.ok (true, vals)
          else Except.ok (false, [])

/-- ExtendedBlockResult.get, with the same client-side slice and
provoke-the-instrument pattern as BlockResult.get (lines 709-714). -/
def ExtendedBlockResult.get (nameArg : String) (dev : String → String) (index : Int)
    (length? : Option Int) :
    Except ScpiErr (Option (List (Option PyVal)) × List Interaction) :=
  let cmd := ExtendedBlockResult.cmdFor nameArg index length?
  match ExtendedBlockResult.readValuesToks (splitOnChar ',' (dev cmd)) with
  | Except.error e => Except.error e
  | Except.ok (valid, vals) =>
      if valid then
        if length? = none ∧ 0 < index then
          if (vals.drop index.toNat).isEmpty then Except.error ScpiErr.deviceFault
          else Except.ok (some (vals.drop index.toNat), [Interaction.query cmd (dev cmd)])
        else Except.ok (some vals, [Interaction.query cmd (dev cmd)])
      else Except.ok (none, [Interaction.query cmd (dev cmd)])

/-!  EventList paging (Scpi.py lines 904-1036).  The while loops of get and
skip share one skeleton: request min(number, 100) records per round trip and
decrement until nothing is left.  Record decoding is independent of the
paging arithmetic and not needed by any claim, so the loop skeleton is
modelled as the list of per-round-trip request sizes. -/

/-- Fixed page bound _maxNumberPerCmd. -/
def EventList.maxNumberPerCmd : Nat := 100

/-- While-loop skeleton of EventList.get / EventList.skip, with fuel (each
iteration consumes at least one record, so number itself bounds the
iteration count): the list of perCallCount request sizes. -/
def EventList.pageLoopAux : Nat → Nat → List Nat
  | 0, _ => []
  | _, 0 => []
  | fuel + 1, number =>
      (min number EventList.maxNumberPerCmd) ::
        EventList.pageLoopAux fuel (number - min number EventList.maxNumberPerCmd)

/-- Page sizes issued for a clamped request of number records. -/
def EventList.pageLoop (number : Nat) : List Nat := EventList.pageLoopAux number number

/-- EventList.get clamps the request to the available count reported by the
NUMB? query, then pages; the per-page queries are the returned sizes. -/
def EventList.getPages (number available : Int) : List Nat :=
  EventList.pageLoop (min number available).toNat

/-- EventList.skip: a number below 1 is returned unchanged with no paging at
all; otherwise the request is clamped to the available count, consumed in
the shared paged pattern, and the accumulated skip count is returned. -/
def EventList.skip (number available : Int) : Int × List Nat :=
  if number < 1 then (number, [])
  else
    ((EventList.pageLoop (min number available).toNat).sum,
      EventList.pageLoop (min number available).toNat)

/-!  Event decoder (util.py lines 64-216).  The JSON schema has already been
ingested into the dispatch tables the constructor builds: a (shift, mask)
pair for the format selector, a per-format field list of (shift, mask) pairs
with parallel (name, typeTag) tags, and the enum translation tables.  The
tables keep their construction order, so Python dicts are association
lists. -/

/-- First-match association-list lookup (Python dict indexing for the tables
built by the decoder constructor). -/
def alistFind {α β : Type} [BEq α] (l : List (α × β)) (k : α) : Option β :=
  (l.find? (fun p => p.1 == k)).map (fun p => p.2)

/-- Decoded event payload: the eventID entry plus the ordered additionalInfo
mapping of field name to (raw value, enum label).  The lenient failure path
returns the empty payload. -/
structure DecodedEvent where
  eventID : Option (Nat × String)
  additionalInfo : List (String × Nat × String)
deriving DecidableEq, Repr

/-- Python's empty result dictionary. -/
def DecodedEvent.empty : DecodedEvent := { eventID := none, additionalInfo := [] }

/-- OntEventDecoder state after construction. -/
structure OntEventDecoder where
  strict : Bool
  fidShift : Nat
  fidMask : Nat
  decoderDict : List (Nat × List (Nat × Nat))
  tagDict : List (Nat × List (String × String))
  enumDict : List (String × List (Nat × String))
deriving DecidableEq, Repr

/-- Format selector extraction: (value >> shift) & mask. -/
def OntEventDecoder.formatIndexOf (d : OntEventDecoder) (value : Nat) : Nat :=
  (value >>> d.fidShift) &&& d.fidMask

/-- OntEventDecoder._decode: a selector absent from the format table raises
the UnknownFormat error; otherwise every field is bit-extracted in order. -/
def OntEventDecoder.decode (d : OntEventDecoder) (value : Nat) :
    Except ScpiErr (Nat × List Nat) :=
  match alistFind d.decoderDict (d.formatIndexOf value) with
  | none => Except.error (ScpiErr.unknownFormat (d.formatIndexOf value))
  | some decoderList =>
      Except.ok (d.formatIndexOf value, decoderList.map (fun sm => (value >>> sm.1) &&& sm.2))

/-- OntEventDecoder._interpretedValue: enum translation, with a missing type
tag or missing value falling back to the empty label. -/
def OntEventDecoder.interpretedValue (d : OntEventDecoder) (value : Nat)
    (typeTag : String) : String :=
  match alistFind d.enumDict typeTag with
  | none => ""
  | some table =>
      match alistFind table value with
      | none => ""
      | some label => label

/-- Result assembly of decodeEvent: tags and extracted values are zipped; the
eventID field fills the dedicated slot, everything else goes to the ordered
additionalInfo mapping. -/
def OntEventDecoder.buildResult (d : OntEventDecoder) (tags : List (String × String))
    (values : List Nat) : DecodedEvent :=
  (tags.zip values).foldl
    (fun acc p =>
      if p.1.1 = "eventID" then
        { acc with eventID := some (p.2, d.interpretedValue p.2 p.1.2) }
      else
        { acc with additionalInfo :=
            acc.additionalInfo ++ [(p.1.1, p.2, d.interpretedValue p.2 p.1.2)] })
    DecodedEvent.empty

/-- OntEventDecoder.decodeEvent: a _decode failure is re-raised in strict
mode and swallowed to the empty payload otherwise; on success the payload is
assembled from the tag table. -/
def OntEventDecoder.decodeEvent (d : OntEventDecoder) (value : Nat) :
    Except ScpiErr DecodedEvent :=
  match d.decode value with
  | Except.error e => if d.strict then Except.error e else Except.ok DecodedEvent.empty
  | Except.ok (fmtIndex, values) =>
      match alistFind d.tagDict fmtIndex with
      | none => Except.error ScpiErr.keyError
      | some tags => Except.ok (d.buildResult tags values)

/-!  Helper lemmas. -/

/-- Doubling a nonempty character list is nonempty. -/
theorem doubleQuotes_cons_ne_nil (c : Char) (cs : List Char) : doubleQuotes (c :: cs) ≠ [] := by
  unfold doubleQuotes
  by_cases hc : c = '"' <;> simp [hc]

/-- Unfolding equation of the two-character step of collapseQuotes. -/
theorem collapseQuotes_cons_cons (c1 c2 : Char) (rest : List Char) :
    collapseQuotes (c1 :: c2 :: rest) =
      if c1 = '"' ∧ c2 = '"' then '"' :: collapseQuotes rest
      else c1 :: collapseQuotes (c2 :: rest) := by
  rfl

/-- The left-to-right collapse undoes the doubling, for any continuation. -/
theorem collapseQuotes_doubleQuotes_append (cs tail : List Char) :
    collapseQuotes (doubleQuotes cs ++ tail) = cs ++ collapseQuotes tail := by
  induction cs generalizing tail with
  | nil => simp [doubleQuotes]
  | cons c rest ih =>
      by_cases hc : c = '"'
      · subst hc
        have hd : doubleQuotes ('"' :: rest) = '"' :: '"' :: doubleQuotes rest := by
          simp [doubleQuotes]
        rw [hd, List.cons_append, List.cons_append, collapseQuotes_cons_cons]
        simp [ih]
      · have hd : doubleQuotes (c :: rest) = c :: doubleQuotes rest := by
          simp [doubleQuotes, hc]
        rw [hd, List.cons_append]
        cases htl : doubleQuotes rest ++ tail with
        | nil =>
            have h1 : doubleQuotes rest = [] ∧ tail = [] := List.append_eq_nil.mp htl
            have h2 : rest = [] := by
              cases rest with
              | nil => rfl
              | cons r rs => exact absurd h1.1 (doubleQuotes_cons_ne_nil r rs)
            simp [collapseQuotes, h1.2, h2]
        | cons t1 ts =>
            rw [collapseQuotes_cons_cons]
            rw [if_neg (by simp [hc])]
            rw [← htl, ih]
            simp

/-- Quoting round-trips: collapsing after doubling is the identity. -/
theorem collapseQuotes_doubleQuotes (cs : List Char) :
    collapseQuotes (doubleQuotes cs) = cs := by
  have h := collapseQuotes_doubleQuotes_append cs []
  simpa [collapseQuotes] using h

/-- Unquoting the quoted wire form gives the original string back. -/
theorem scpiUnquote_scpiQuote (s : String) : scpiUnquote (scpiQuote s) = s := by
  show scpiUnquote (String.mk ('"' :: (doubleQuotes s.data ++ ['"']))) = s
  unfold scpiUnquote
  simp only [List.dropLast_concat, collapseQuotes_doubleQuotes]

/-- C3: for every string s, writing s through the scalar string-set path
(Parameter._setScpiString doubles every internal quote and wraps the payload
in quotes, producing the wire token scpiQuote s) and reading that token back
through the string-get path (Parameter._getString strips the enclosing
quotes and collapses each doubled quote) yields s unchanged. -/
theorem scpi_string_set_get_roundtrip (cfg : ParamCfg) (dev : String → String) (s : String) :
    scpiUnquote (scpiQuote s) = s ∧
    Parameter.setResolved cfg dev { ptype := PType.pstr, stringSet := true } (PyVal.str s) =
      Except.ok [txInteraction cfg.opcQuery dev (Parameter.writeCmd cfg (scpiQuote s))] ∧
    Parameter.getString cfg (fun _ => scpiQuote s) = Except.ok (PyVal.str s) := by
  refine ⟨scpiUnquote_scpiQuote s, rfl, ?_⟩
  show Parameter.getString cfg (fun _ => String.mk ('"' :: (doubleQuotes s.data ++ ['"']))) =
    Except.ok (PyVal.str s)
  unfold Parameter.getString
  exact congrArg (fun v => Except.ok (PyVal.str v)) (scpiUnquote_scpiQuote s)

/-- A resolved get leaves the state untouched and performs exactly the one
value query. -/
theorem Parameter.getOp_resolved (cfg : ParamCfg) (dev : String → String)
    (s : ParamState) (b : WireBinding) (hb : s.binding = some b)
    (v : PyVal) (s1 : ParamState) (tr : List Interaction)
    (h : Parameter.getOp cfg dev s = Except.ok (v, s1, tr)) :
    s1 = s ∧ tr = [Interaction.query (cfg.name ++ "?") (dev (cfg.name ++ "?"))] := by
  unfold Parameter.getOp at h
  rw [hb] at h
  dsimp only at h
  cases hx : (if b.ptype = PType.pstr then Parameter.getString cfg dev
              else Parameter.getNumeric cfg dev) with
  | error e => rw [hx] at h; cases h
  | ok val =>
      rw [hx] at h
      injection h with h1
      injection h1 with _ h2
      injection h2 with h3 h4
      exact ⟨h3.symm, h4.symm⟩

/-- A successful write through the resolved strategy is exactly one wire
interaction. -/
theorem Parameter.setResolved_length (cfg : ParamCfg) (dev : String → String)
    (b : WireBinding) (value : PyVal) (wtr : List Interaction)
    (h : Parameter.setResolved cfg dev b value = Except.ok wtr) : wtr.length = 1 := by
  unfold Parameter.setResolved at h
  by_cases hs : b.stringSet
  · rw [if_pos hs] at h
    cases value with
    | str sv => injection h with h1; rw [← h1]; rfl
    | int n => cases h
    | float tok => cases h
  · rw [if_neg hs] at h
    injection h with h1
    rw [← h1]
    rfl

/-- A resolved set leaves the state untouched and performs exactly one wire
interaction (its write): no type-probing query is issued. -/
theorem Parameter.setOp_resolved (cfg : ParamCfg) (dev : String → String)
    (s : ParamState) (b : WireBinding) (hb : s.binding = some b)
    (value : PyVal) (s1 : ParamState) (tr : List Interaction)
    (h : Parameter.setOp cfg dev s value = Except.ok (s1, tr)) :
    s1 = s ∧ tr.length = 1 := by
  unfold Parameter.setOp at h
  rw [hb] at h
  dsimp only at h
  cases hx : Parameter.setResolved cfg dev b value with
  | error e => rw [hx] at h; cases h
  | ok wtr =>
      rw [hx] at h
      injection h with h1
      injection h1 with h2 h3
      exact ⟨h2.symm, h3 ▸ Parameter.setResolved_length cfg dev b value wtr hx⟩

/-- Any single successful public call on a resolved Parameter preserves the
binding. -/
theorem Parameter.step_preserves_binding (cfg : ParamCfg) (dev : String → String)
    (s : ParamState) (b : WireBinding) (op : ParamOp) (s1 : ParamState)
    (tr : List Interaction) (hb : s.binding = some b)
    (h : Parameter.step cfg dev s op = Except.ok (s1, tr)) : s1.binding = some b := by
  cases op with
  | get =>
      unfold Parameter.step at h
      cases hg : Parameter.getOp cfg dev s with
      | error e => rw [hg] at h; cases h
      | ok out =>
          rw [hg] at h
          obtain ⟨v, s2, tr2⟩ := out
          injection h with h1
          injection h1 with h2 h3
          have := Parameter.getOp_resolved cfg dev s b hb v s2 tr2 hg
          rw [← h2, this.1, hb]
  | set value =>
      have := Parameter.setOp_resolved cfg dev s b hb value s1 tr h
      rw [this.1, hb]
  | store =>
      unfold Parameter.step Parameter.storeOp at h
      cases hg : Parameter.getOp cfg dev s with
      | error e => rw [hg] at h; cases h
      | ok out =>
          rw [hg] at h
          obtain ⟨v, s2, tr2⟩ := out
          injection h with h1
          injection h1 with h2 h3
          have := Parameter.getOp_resolved cfg dev s b hb v s2 tr2 hg
          rw [← h2]
          show s2.binding = some b
          rw [this.1, hb]
  | restore =>
      unfold Parameter.step Parameter.restoreOp at h
      cases hst : s.storedValue with
      | none => rw [hst] at h; cases h
      | some val =>
          rw [hst] at h
          have := Parameter.setOp_resolved cfg dev s b hb val s1 tr h
          rw [this.1, hb]

/-- A whole successful run of public calls on a resolved Parameter preserves
the binding. -/
theorem Parameter.run_preserves_binding (cfg : ParamCfg) (dev : String → String)
    (ops : List ParamOp) (s : ParamState) (b : WireBinding) (s1 : ParamState)
    (tr : List Interaction) (hb : s.binding = some b)
    (h : Parameter.run cfg dev s ops = Except.ok (s1, tr)) : s1.binding = some b := by
  induction ops generalizing s tr with
  | nil =>
      unfold Parameter.run at h
      injection h with h1
      injection h1 with h2 h3
      rw [← h2, hb]
  | cons op ops ih =>
      unfold Parameter.run at h
      cases hs : Parameter.step cfg dev s op with
      | error e => rw [hs] at h; cases h
      | ok out =>
          rw [hs] at h
          obtain ⟨s2, tr2⟩ := out
          dsimp only at h
          cases hr : Parameter.run cfg dev s2 ops with
          | error e => rw [hr] at h; cases h
          | ok out2 =>
              rw [hr] at h
              obtain ⟨s3, tr3⟩ := out2
              injection h with h1
              injection h1 with h2 h3
              subst h2
              have hb2 := Parameter.step_preserves_binding cfg dev s b op s2 tr2 hb hs
              exact ih s2 tr3 hb2 hr

/-- A successful get on an unresolved Parameter leaves the binding resolved. -/
theorem Parameter.getOp_unresolved_resolves (cfg : ParamCfg) (dev : String → String)
    (s : ParamState) (v : PyVal) (s1 : ParamState) (tr : List Interaction)
    (hb : s.binding = none) (h : Parameter.getOp cfg dev s = Except.ok (v, s1, tr)) :
    s1.binding.isSome = true := by
  unfold Parameter.getOp at h
  rw [hb] at h
  dsimp only at h
  cases hx : Parameter.configureType cfg dev with
  | error e => rw [hx] at h; cases h
  | ok out =>
      rw [hx] at h
      obtain ⟨val, b, tr2⟩ := out
      dsimp only at h
      injection h with h1
      injection h1 with _ h2
      injection h2 with h3 _
      rw [← h3]
      rfl

/-- A successful set on an unresolved Parameter leaves the binding resolved. -/
theorem Parameter.setOp_unresolved_resolves (cfg : ParamCfg) (dev : String → String)
    (s : ParamState) (value : PyVal) (s1 : ParamState) (tr : List Interaction)
    (hb : s.binding = none) (h : Parameter.setOp cfg dev s value = Except.ok (s1, tr)) :
    s1.binding.isSome = true := by
  unfold Parameter.setOp at h
  rw [hb] at h
  dsimp only at h
  cases hx : Parameter.configureType cfg dev with
  | error e => rw [hx] at h; cases h
  | ok out =>
      rw [hx] at h
      obtain ⟨val, b, tr2⟩ := out
      dsimp only at h
      cases hw : Parameter.setResolved cfg dev b value with
      | error e => rw [hw] at h; cases h
      | ok wtr =>
          rw [hw] at h
          injection h with h1
          injection h1 with h2 _
          rw [← h2]
          rfl

/-- C1: the resolved wire type of a scalar endpoint is a one-way,
session-stable binding.  A successful get or set on an unresolved Parameter
leaves it resolved; once the state carries a binding, every public call
(get, set, store, restore) and every whole run of calls preserves that exact
binding; a resolved get performs exactly its one value query and a resolved
set exactly its one write interaction, so no extra type-probing query is ever
issued after resolution. -/
theorem parameter_wire_type_session_stable :
    (∀ cfg dev s b op s1 tr, s.binding = some b →
        Parameter.step cfg dev s op = Except.ok (s1, tr) → s1.binding = some b) ∧
    (∀ cfg dev s b ops s1 tr, s.binding = some b →
        Parameter.run cfg dev s ops = Except.ok (s1, tr) → s1.binding = some b) ∧
    (∀ cfg dev s b v s1 tr, s.binding = some b →
        Parameter.getOp cfg dev s = Except.ok (v, s1, tr) →
          s1 = s ∧ tr = [Interaction.query (cfg.name ++ "?") (dev (cfg.name ++ "?"))]) ∧
    (∀ cfg dev s b value s1 tr, s.binding = some b →
        Parameter.setOp cfg dev s value = Except.ok (s1, tr) → s1 = s ∧ tr.length = 1) ∧
    (∀ cfg dev s v s1 tr, s.binding = none →
        Parameter.getOp cfg dev s = Except.ok (v, s1, tr) → s1.binding.isSome = true) ∧
    (∀ cfg dev s value s1 tr, s.binding = none →
        Parameter.setOp cfg dev s value = Except.ok (s1, tr) → s1.binding.isSome = true) :=
  ⟨fun cfg dev s b op s1 tr hb h =>
      Parameter.step_preserves_binding cfg dev s b op s1 tr hb h,
   fun cfg dev s b ops s1 tr hb h =>
      Parameter.run_preserves_binding cfg dev ops s b s1 tr hb h,
   fun cfg dev s b v s1 tr hb h =>
      Parameter.getOp_resolved cfg dev s b hb v s1 tr h,
   fun cfg dev s b value s1 tr hb h =>
      Parameter.setOp_resolved cfg dev s b hb value s1 tr h,
   fun cfg dev s v s1 tr hb h =>
      Parameter.getOp_unresolved_resolves cfg dev s v s1 tr hb h,
   fun cfg dev s value s1 tr hb h =>
      Parameter.setOp_unresolved_resolves cfg dev s value s1 tr hb h⟩

/-- Witness for C1: a concrete resolved integer endpoint keeps its binding
across a run of one get, one set and one store. -/
theorem parameter_wire_type_session_stable_witness :
    ({ binding := some { ptype := PType.pint, stringSet := false },
       storedValue := some (PyVal.int 7) } : ParamState).binding =
      some { ptype := PType.pint, stringSet := false } :=
  parameter_wire_type_session_stable.2.1 ⟨"P", false⟩ (fun _ => "7")
    { binding := some { ptype := PType.pint, stringSet := false }, storedValue := none }
    { ptype := PType.pint, stringSet := false }
    [ParamOp.get, ParamOp.set (PyVal.int 9), ParamOp.store]
    { binding := some { ptype := PType.pint, stringSet := false },
      storedValue := some (PyVal.int 7) }
    [Interaction.query "P?" "7", Interaction.command "P 9", Interaction.query "P?" "7"]
    rfl (by rfl)

/-- C4: the first set on a still-unresolved scalar endpoint never surfaces a
NotTyped error: it resolves the type with the endpoint's own value query (an
implicit get) and then replays the original set against the now-bound write
strategy, so the trace is exactly one type-resolving query followed by the
single write of the resolved strategy, and the endpoint ends up resolved. -/
theorem parameter_set_unresolved_auto_resolves (cfg : ParamCfg) (dev : String → String)
    (s : ParamState) (value val : PyVal) (b : WireBinding) (wtr : List Interaction)
    (hs : s.binding = none)
    (hclass : configClassify (dev (cfg.name ++ "?")) = Except.ok (val, b))
    (hwrite : Parameter.setResolved cfg dev b value = Except.ok wtr) :
    Parameter.setOp cfg dev s value =
      Except.ok ({ s with binding := some b },
        Interaction.query (cfg.name ++ "?") (dev (cfg.name ++ "?")) :: wtr) ∧
    wtr.length = 1 := by
  refine ⟨?_, Parameter.setResolved_length cfg dev b value wtr hwrite⟩
  unfold Parameter.setOp
  rw [hs]
  dsimp only
  unfold Parameter.configureType
  rw [hclass]
  dsimp only
  rw [hwrite]
  dsimp only
  rw [List.singleton_append]

/-- Witness for C4: a fresh integer endpoint set to 3 first issues its value
query, then the plain write. -/
theorem parameter_set_unresolved_auto_resolves_witness :
    Parameter.setOp ⟨"X", false⟩ (fun _ => "5") Parameter.init (PyVal.int 3) =
      Except.ok ({ binding := some { ptype := PType.pint, stringSet := false },
                   storedValue := none },
        [Interaction.query "X?" "5", Interaction.command "X 3"]) :=
  (parameter_set_unresolved_auto_resolves ⟨"X", false⟩ (fun _ => "5") Parameter.init
    (PyVal.int 3) (PyVal.int 5) { ptype := PType.pint, stringSet := false }
    [Interaction.command "X 3"] rfl (by rfl) (by rfl)).1

/-- C2 counterexample: the response "2,5" has a first token that parses as
the integer 2 — neither 0 nor 1 — yet _decodeResult does not fail with a
MalformedResult error: it returns the invalid result (false, absent).  Only a
first token that does not parse as an integer at all is a decode fault. -/
theorem decodeResult_nonbinary_flag_counterexample :
    pyParseInt "2" = some 2 ∧
    pyParseInt "2" ≠ some 0 ∧
    pyParseInt "2" ≠ some 1 ∧
    decodeResult "2,5" = Except.ok (false, none) := by
  refine ⟨rfl, ?_, ?_, rfl⟩ <;> decide

/-- C2 amended: in the two-token validFlag,value grammar, a first token that
does not parse as an integer is the MalformedResult decode fault; a first
token parsing as the integer 1 marks the result valid and classifies the
second token (integers and floats as numbers; on ValueError a leading quote
strips the enclosing quotes, without collapsing doubled quotes; other tokens
stay raw strings); a first token parsing as any other integer — 0 included —
yields the invalid result with an absent value regardless of the second
token, as in the spec's "0,999" example surfaced through Result.get. -/
theorem decodeResult_flag_semantics (t0 t1 : String) :
    (pyParseInt t0 = none →
        decodeResultToks [t0, t1] = Except.error ScpiErr.badValidFlag ∧
        ScpiErr.badValidFlag.isMalformedResult = true) ∧
    (∀ k : Int, pyParseInt t0 = some k → k ≠ 1 →
        decodeResultToks [t0, t1] = Except.ok (false, none)) ∧
    (pyParseInt t0 = some 1 →
        decodeResultToks [t0, t1] =
          match decodeValueToken t1 with
          | Except.error e => Except.error e
          | Except.ok val => Except.ok (true, some val)) ∧
    decodeResult "0,999" = Except.ok (false, none) ∧
    Result.get "X" (fun _ => "0,999") =
      Except.ok (none, [Interaction.query "X?" "0,999"]) := by
  refine ⟨?_, ?_, ?_, rfl, rfl⟩
  · intro h
    unfold decodeResultToks
    dsimp only
    rw [h]
    exact ⟨rfl, rfl⟩
  · intro k h hk
    unfold decodeResultToks
    dsimp only
    rw [h]
    dsimp only
    rw [if_neg hk]
  · intro h
    unfold decodeResultToks
    dsimp only
    rw [h]
    dsimp only
    rw [if_pos rfl]

/-- Witness for C2 amended: the flag token "0" parses as the integer 0, so
"0,999" decodes to the invalid result with an absent value. -/
theorem decodeResult_flag_semantics_witness :
    decodeResultToks ["0", "999"] = Except.ok (false, none) :=
  (decodeResult_flag_semantics "0" "999").2.1 0 (by rfl) (by decide)

/-- C5 counterexample: with the device reporting the invalid envelope "-1",
BlockResult.get returns the absent result None — not an empty sequence of
values. -/
theorem blockresult_invalid_envelope_counterexample :
    BlockResult.get "SIG" (fun _ => "-1") 0 none =
      Except.ok (none, [Interaction.query "SIG:BLOC?" "-1"]) ∧
    (none : Option (List PyVal)) ≠ some [] := by
  exact ⟨rfl, by decide⟩

/-- C5 amended: when the leading count token of a vector result parses as an
integer less than 0, _readValues reports the invalid envelope with an empty
internal token decode, and BlockResult.get surfaces it to the caller as the
absent result None (the empty sequence never reaches the caller). -/
theorem blockresult_invalid_envelope_absent (nameArg : String) (dev : String → String)
    (index : Int) (length? : Option Int) (count : Int)
    (hc : pyParseInt
        ((splitOnChar ',' (dev (BlockResult.cmdFor nameArg index length?))).headI) =
      some count)
    (hneg : count < 0) :
    BlockResult.readValuesToks
        (splitOnChar ',' (dev (BlockResult.cmdFor nameArg index length?))) =
      Except.ok (false, []) ∧
    BlockResult.get nameArg dev index length? =
      Except.ok (none, [Interaction.query (BlockResult.cmdFor nameArg index length?)
        (dev (BlockResult.cmdFor nameArg index length?))]) := by
  have hro : BlockResult.readValuesToks
      (splitOnChar ',' (dev (BlockResult.cmdFor nameArg index length?))) =
      Except.ok (false, []) := by
    cases htoks : splitOnChar ',' (dev (BlockResult.cmdFor nameArg index length?)) with
    | nil =>
        rw [htoks] at hc
        have hnone : pyParseInt (List.headI ([] : List String)) = none := by rfl
        rw [hnone] at hc
        cases hc
    | cons c0 rest =>
        rw [htoks] at hc
        unfold BlockResult.readValuesToks
        dsimp only
        rw [show (c0 :: rest).headI = c0 from rfl] at hc
        rw [hc]
        dsimp only
        rw [if_neg (by omega)]
  refine ⟨hro, ?_⟩
  unfold BlockResult.get
  dsimp only
  rw [hro]
  dsimp only
  rw [if_neg (by simp)]

/-- Witness for C5 amended: the envelope "-1" makes a concrete whole-block
read return the absent result. -/
theorem blockresult_invalid_envelope_absent_witness :
    BlockResult.get "SIG" (fun _ => "-1") 2 none =
      Except.ok (none, [Interaction.query "SIG:BLOC?" "-1"]) :=
  (blockresult_invalid_envelope_absent "SIG" (fun _ => "-1") 2 none (-1)
    (by rfl) (by decide)).2

/-- C6: for an extended vector result whose leading count token parses as a
nonnegative integer, the decode fails with the InconsistentLength error
exactly when the count differs from half (integer division) the number of
remaining tokens; otherwise the flag/value pairs are decoded, a pair with
flag 1 classifying its value and a pair with flag 0 yielding an absent
element while the envelope stays valid; in particular "2,1,5,0,7" decodes
through ExtendedBlockResult.get to the valid two-element sequence
[5, absent]. -/
theorem extended_block_result_decode (c0 : String) (vals : List String) (count : Int)
    (hc : pyParseInt c0 = some count) (hpos : 0 ≤ count) :
    (count ≠ ((vals.length / 2 : Nat) : Int) →
        ExtendedBlockResult.readValuesToks (c0 :: vals) =
          Except.error ScpiErr.inconsistentLength) ∧
    (count = ((vals.length / 2 : Nat) : Int) → vals ≠ [] →
        ExtendedBlockResult.readValuesToks (c0 :: vals) =
          match ExtendedBlockResult.decodePairs count.toNat vals with
          | Except.error e => Except.error e
          | Except.ok decoded => Except.ok (true, decoded)) ∧
    (∀ (n : Nat) (flag value : String) (rest : List String) (v : PyVal)
        (tail : List (Option PyVal)),
        pyParseInt flag = some 1 → decodeValueToken value = Except.ok v →
        ExtendedBlockResult.decodePairs n rest = Except.ok tail →
        ExtendedBlockResult.decodePairs (n + 1) (flag :: value :: rest) =
          Except.ok (some v :: tail)) ∧
    (∀ (n : Nat) (flag value : String) (rest : List String)
        (tail : List (Option PyVal)),
        pyParseInt flag = some 0 →
        ExtendedBlockResult.decodePairs n rest = Except.ok tail →
        ExtendedBlockResult.decodePairs (n + 1) (flag :: value :: rest) =
          Except.ok (none :: tail)) ∧
    ExtendedBlockResult.get "R" (fun _ => "2,1,5,0,7") 0 none =
      Except.ok (some [some (PyVal.int 5), none],
        [Interaction.query "R:EBLOC?" "2,1,5,0,7"]) := by
  refine ⟨?_, ?_, ?_, ?_, rfl⟩
  · intro hne
    unfold ExtendedBlockResult.readValuesToks
    dsimp only
    rw [hc]
    dsimp only
    rw [if_pos (by omega), if_pos hne]
  · intro heq hvals
    unfold ExtendedBlockResult.readValuesToks
    dsimp only
    rw [hc]
    dsimp only
    rw [if_pos (by omega), if_neg (by simp [heq]), if_neg (by simpa using hvals)]
  · intro n flag value rest v tail hflag hval htail
    unfold ExtendedBlockResult.decodePairs
    rw [hflag]
    dsimp only
    rw [if_pos rfl, hval]
    dsimp only
    rw [htail]
  · intro n flag value rest tail hflag htail
    unfold ExtendedBlockResult.decodePairs
    rw [hflag]
    dsimp only
    rw [if_neg (by decide)]
    dsimp only
    rw [htail]

/-- Witness for C6: the spec's example "2,1,5,0,7" — count 2, pairs (1,5)
and (0,7) — decodes to [5, absent]. -/
theorem extended_block_result_decode_witness :
    ExtendedBlockResult.get "R" (fun _ => "2,1,5,0,7") 0 none =
      Except.ok (some [some (PyVal.int 5), none],
        [Interaction.query "R:EBLOC?" "2,1,5,0,7"]) :=
  (extended_block_result_decode "2" ["1", "5", "0", "7"] 2 (by rfl) (by decide)).2.2.2.2

/-- Paging invariants of the shared while-loop skeleton: with enough fuel the
page list has exactly ceiling(number / 100) entries, the pages sum to the
whole clamped request, and every page is between 1 and 100. -/
theorem EventList.pageLoopAux_spec (fuel : Nat) :
    ∀ number : Nat, number ≤ fuel →
      (EventList.pageLoopAux fuel number).length = (number + 99) / 100 ∧
      (EventList.pageLoopAux fuel number).sum = number ∧
      (∀ p ∈ EventList.pageLoopAux fuel number, 1 ≤ p ∧ p ≤ 100) := by
  induction fuel with
  | zero =>
      intro number hle
      have h0 : number = 0 := Nat.le_zero.mp hle
      subst h0
      refine ⟨rfl, rfl, ?_⟩
      intro p hp
      cases hp
  | succ fuel ih =>
      intro number hle
      cases number with
      | zero =>
          refine ⟨rfl, rfl, ?_⟩
          intro p hp
          cases hp
      | succ n =>
          have hmax : EventList.maxNumberPerCmd = 100 := rfl
          have hunf : EventList.pageLoopAux (fuel + 1) (n + 1) =
              (min (n + 1) EventList.maxNumberPerCmd) ::
                EventList.pageLoopAux fuel ((n + 1) - min (n + 1) EventList.maxNumberPerCmd) :=
            rfl
          have hrest := ih ((n + 1) - min (n + 1) EventList.maxNumberPerCmd)
            (by rw [hmax]; omega)
          rw [hunf]
          refine ⟨?_, ?_, ?_⟩
          · rw [List.length_cons, hrest.1, hmax]
            omega
          · rw [List.sum_cons, hrest.2.1, hmax]
            omega
          · intro p hp
            rcases List.mem_cons.mp hp with hph | hpt
            · subst hph
              rw [hmax]
              constructor <;> omega
            · exact hrest.2.2 p hpt

/-- C7: EventList.get clamps the requested number to the available count and
fetches in pages of at most 100 records per round-trip query, issuing exactly
ceiling(min(number, available) / 100) page queries whose sizes sum to the
clamped request; in particular a request of 250 against 180 available records
performs exactly the 2 page fetches 100 and 80, never 3. -/
theorem eventlist_get_paging (number available : Int) :
    (EventList.getPages number available).length =
      ((min number available).toNat + 99) / 100 ∧
    (EventList.getPages number available).sum = (min number available).toNat ∧
    (∀ p ∈ EventList.getPages number available, 1 ≤ p ∧ p ≤ EventList.maxNumberPerCmd) ∧
    EventList.getPages 250 180 = [100, 80] ∧
    (EventList.getPages 250 180).length = 2 := by
  have h := EventList.pageLoopAux_spec (min number available).toNat
    (min number available).toNat (Nat.le_refl _)
  exact ⟨h.1, h.2.1, h.2.2, by decide, by decide⟩

/-- C8 counterexample: EventList.skip returns its argument unchanged when the
argument is below 1, so skip(-5) returns -5 even though no page query is
issued and no record is consumed — the return value differs from the number
of records actually consumed (0). -/
theorem eventlist_skip_negative_counterexample :
    EventList.skip (-5) 10 = (-5, []) ∧
    (((EventList.skip (-5) 10).2.sum : Int) = 0) ∧
    (EventList.skip (-5) 10).1 ≠ ((EventList.skip (-5) 10).2.sum : Int) := by
  refine ⟨rfl, rfl, ?_⟩
  decide

/-- C8 amended: for every nonnegative integer argument, EventList.skip
consumes min(number, available) records through the same page pattern as
EventList.get (pages of at most 100) and returns exactly the number of
records it consumed; an argument below 1 is returned unchanged without any
consumption, so the returns-consumed equation holds for number at least 0 but
fails for negative arguments. -/
theorem eventlist_skip_returns_consumed (number available : Int) (h : 0 ≤ number) :
    (EventList.skip number available).1 = ((EventList.skip number available).2.sum : Int) ∧
    (EventList.skip number available).2.sum = (min number available).toNat ∧
    ((EventList.skip number available).2.sum : Int) ≤ number ∧
    (EventList.skip number available).2 = EventList.getPages number available ∧
    (∀ p ∈ (EventList.skip number available).2, p ≤ EventList.maxNumberPerCmd) := by
  have hspec := EventList.pageLoopAux_spec (min number available).toNat
    (min number available).toNat (Nat.le_refl _)
  by_cases hlt : number < 1
  · have h0 : number = 0 := by omega
    subst h0
    have hskip : EventList.skip 0 available = (0, []) := rfl
    rw [hskip]
    refine ⟨rfl, ?_, by simp, ?_, ?_⟩
    · show 0 = (min 0 available).toNat
      omega
    · show ([] : List Nat) = EventList.getPages 0 available
      unfold EventList.getPages EventList.pageLoop
      have : (min 0 available).toNat = 0 := by omega
      rw [this]
      rfl
    · intro p hp
      cases hp
  · have hskip : EventList.skip number available =
        (((EventList.pageLoop (min number available).toNat).sum : Int),
          EventList.pageLoop (min number available).toNat) := by
      unfold EventList.skip
      rw [if_neg hlt]
    rw [hskip]
    refine ⟨rfl, hspec.2.1, ?_, rfl, ?_⟩
    · show ((EventList.pageLoop (min number available).toNat).sum : Int) ≤ number
      unfold EventList.pageLoop
      rw [hspec.2.1]
      omega
    · intro p hp
      exact (hspec.2.2 p hp).2

/-- Witness for C8 amended: skip(250) against 180 available records consumes
and reports exactly 180. -/
theorem eventlist_skip_returns_consumed_witness :
    (EventList.skip 250 180).1 = ((EventList.skip 250 180).2.sum : Int) :=
  (eventlist_skip_returns_consumed 250 180 (by decide)).1

/-- C9: when the format selector extracted from a raw event value is absent
from the decoder's format table, decodeEvent fails with the UnknownFormat
error in strict mode, and in lenient mode it raises nothing and returns the
empty payload (an empty additional-info mapping) instead. -/
theorem event_decoder_unknown_format (d : OntEventDecoder) (value : Nat)
    (h : alistFind d.decoderDict (d.formatIndexOf value) = none) :
    (d.strict = true →
        d.decodeEvent value =
          Except.error (ScpiErr.unknownFormat (d.formatIndexOf value))) ∧
    (d.strict = false → d.decodeEvent value = Except.ok DecodedEvent.empty) := by
  constructor <;> intro hs <;>
    · unfold OntEventDecoder.decodeEvent OntEventDecoder.decode
      rw [h]
      dsimp only
      rw [hs]
      rfl

/-- Witness for C9: a decoder with an empty format table swallows the raw
value 3 to the empty payload in lenient mode and raises UnknownFormat in
strict mode. -/
theorem event_decoder_unknown_format_witness :
    OntEventDecoder.decodeEvent
      { strict := false, fidShift := 0, fidMask := 15,
        decoderDict := [], tagDict := [], enumDict := [] } 3 =
      Except.ok DecodedEvent.empty ∧
    OntEventDecoder.decodeEvent
      { strict := true, fidShift := 0, fidMask := 15,
        decoderDict := [], tagDict := [], enumDict := [] } 3 =
      Except.error (ScpiErr.unknownFormat
        (OntEventDecoder.formatIndexOf
          { strict := true, fidShift := 0, fidMask := 15,
            decoderDict := [], tagDict := [], enumDict := [] } 3)) :=
  ⟨(event_decoder_unknown_format
      { strict := false, fidShift := 0, fidMask := 15,
        decoderDict := [], tagDict := [], enumDict := [] } 3 rfl).2 rfl,
   (event_decoder_unknown_format
      { strict := true, fidShift := 0, fidMask := 15,
        decoderDict := [], tagDict := [], enumDict := [] } 3 rfl).1 rfl⟩

/-- Parameter.get never touches the stored snapshot. -/
theorem Parameter.getOp_storedValue (cfg : ParamCfg) (dev : String → String)
    (s : ParamState) (v : PyVal) (s1 : ParamState) (tr : List Interaction)
    (h : Parameter.getOp cfg dev s = Except.ok (v, s1, tr)) :
    s1.storedValue = s.storedValue := by
  unfold Parameter.getOp at h
  cases hb : s.binding with
  | none =>
      rw [hb] at h
      dsimp only at h
      cases hx : Parameter.configureType cfg dev with
      | error e => rw [hx] at h; cases h
      | ok out =>
          rw [hx] at h
          obtain ⟨val, b, tr2⟩ := out
          dsimp only at h
          injection h with h1
          injection h1 with _ h2
          injection h2 with h3 _
          rw [← h3]
  | some b =>
      rw [hb] at h
      dsimp only at h
      cases hx : (if b.ptype = PType.pstr then Parameter.getString cfg dev
                  else Parameter.getNumeric cfg dev) with
      | error e => rw [hx] at h; cases h
      | ok val =>
          rw [hx] at h
          injection h with h1
          injection h1 with _ h2
          injection h2 with h3 _
          rw [← h3]

/-- Parameter.set never touches the stored snapshot. -/
theorem Parameter.setOp_storedValue (cfg : ParamCfg) (dev : String → String)
    (s : ParamState) (value : PyVal) (s1 : ParamState) (tr : List Interaction)
    (h : Parameter.setOp cfg dev s value = Except.ok (s1, tr)) :
    s1.storedValue = s.storedValue := by
  unfold Parameter.setOp at h
  cases hb : s.binding with
  | none =>
      rw [hb] at h
      dsimp only at h
      cases hx : Parameter.configureType cfg dev with
      | error e => rw [hx] at h; cases h
      | ok out =>
          rw [hx] at h
          obtain ⟨val, b, tr2⟩ := out
          dsimp only at h
          cases hw : Parameter.setResolved cfg dev b value with
          | error e => rw [hw] at h; cases h
          | ok wtr =>
              rw [hw] at h
              injection h with h1
              injection h1 with h2 _
              rw [← h2]
  | some b =>
      rw [hb] at h
      dsimp only at h
      cases hw : Parameter.setResolved cfg dev b value with
      | error e => rw [hw] at h; cases h
      | ok wtr =>
          rw [hw] at h
          injection h with h1
          injection h1 with h2 _
          rw [← h2]

/-- Any successful public Parameter call other than store leaves an absent
snapshot absent. -/
theorem Parameter.step_nonstore_keeps_unstored (cfg : ParamCfg) (dev : String → String)
    (s : ParamState) (op : ParamOp) (s1 : ParamState) (tr : List Interaction)
    (hst : s.storedValue = none) (hop : op ≠ ParamOp.store)
    (h : Parameter.step cfg dev s op = Except.ok (s1, tr)) : s1.storedValue = none := by
  cases op with
  | get =>
      unfold Parameter.step at h
      cases hg : Parameter.getOp cfg dev s with
      | error e => rw [hg] at h; cases h
      | ok out =>
          rw [hg] at h
          obtain ⟨v, s2, tr2⟩ := out
          injection h with h1
          injection h1 with h2 _
          rw [← h2]
          rw [Parameter.getOp_storedValue cfg dev s v s2 tr2 hg, hst]
  | set value =>
      rw [Parameter.setOp_storedValue cfg dev s value s1 tr h, hst]
  | store => exact absurd rfl hop
  | restore =>
      unfold Parameter.step Parameter.restoreOp at h
      rw [hst] at h
      cases h

/-- A whole successful run of Parameter calls without store leaves an absent
snapshot absent. -/
theorem Parameter.run_nonstore_keeps_unstored (cfg : ParamCfg) (dev : String → String)
    (ops : List ParamOp) : ∀ (s s1 : ParamState) (tr : List Interaction),
    s.storedValue = none → ParamOp.store ∉ ops →
    Parameter.run cfg dev s ops = Except.ok (s1, tr) → s1.storedValue = none := by
  induction ops with
  | nil =>
      intro s s1 tr hst _ h
      unfold Parameter.run at h
      injection h with h1
      injection h1 with h2 _
      rw [← h2]
      exact hst
  | cons op ops ih =>
      intro s s1 tr hst hops h
      unfold Parameter.run at h
      cases hs : Parameter.step cfg dev s op with
      | error e => rw [hs] at h; cases h
      | ok out =>
          rw [hs] at h
          obtain ⟨s2, tr2⟩ := out
          dsimp only at h
          cases hr : Parameter.run cfg dev s2 ops with
          | error e => rw [hr] at h; cases h
          | ok out2 =>
              rw [hr] at h
              obtain ⟨s3, tr3⟩ := out2
              injection h with h1
              injection h1 with h2 _
              subst h2
              have hop : op ≠ ParamOp.store := fun he => hops (he ▸ List.mem_cons_self op ops)
              have hst2 := Parameter.step_nonstore_keeps_unstored cfg dev s op s2 tr2 hst hop hs
              exact ih s2 s3 tr3 hst2 (fun hm => hops (List.mem_cons_of_mem op hm)) hr

/-- BlockParameter value parsing never touches the stored snapshot. -/
theorem BlockParameter.parseWithState_storedValue (s : BlockState) (toks : List String)
    (vals : List PyVal) (s1 : BlockState)
    (h : BlockParameter.parseWithState s toks = Except.ok (vals, s1)) :
    s1.storedValue = s.storedValue := by
  unfold BlockParameter.parseWithState at h
  cases hb : s.binding with
  | some b =>
      rw [hb] at h
      dsimp only at h
      cases hp : parseValuesResolved b toks with
      | error e => rw [hp] at h; cases h
      | ok vals2 =>
          rw [hp] at h
          injection h with h1
          injection h1 with _ h2
          rw [← h2]
  | none =>
      rw [hb] at h
      dsimp only at h
      cases hc : blockConfigClassify toks.headI with
      | error e => rw [hc] at h; cases h
      | ok b =>
          rw [hc] at h
          dsimp only at h
          cases hp : parseValuesResolved b toks with
          | error e => rw [hp] at h; cases h
          | ok vals2 =>
              rw [hp] at h
              injection h with h1
              injection h1 with _ h2
              rw [← h2]

/-- BlockParameter.get never touches the stored snapshot. -/
theorem BlockParameter.blockGetOp_storedValue (cfg : BlockCfg) (dev : String → String)
    (s : BlockState) (index : Int) (length? : Option Int)
    (vals : List PyVal) (s1 : BlockState) (tr : List Interaction)
    (h : BlockParameter.getOp cfg dev s index length? = Except.ok (vals, s1, tr)) :
    s1.storedValue = s.storedValue := by
  unfold BlockParameter.getOp at h
  dsimp only at h
  by_cases hix : length? = none ∧ 0 < index
  · rw [if_pos hix] at h
    by_cases hdr : (List.drop index.toNat
        (splitOnChar ',' (dev (BlockParameter.cmdFor cfg index length?)))).isEmpty = true
    · rw [if_pos hdr] at h; cases h
    · rw [if_neg hdr] at h
      cases hp : BlockParameter.parseWithState s (List.drop index.toNat
          (splitOnChar ',' (dev (BlockParameter.cmdFor cfg index length?)))) with
      | error e => rw [hp] at h; cases h
      | ok out =>
          rw [hp] at h
          obtain ⟨vals2, s2⟩ := out
          dsimp only at h
          injection h with h1
          injection h1 with _ h2
          injection h2 with h3 _
          rw [← h3]
          exact BlockParameter.parseWithState_storedValue s _ vals2 s2 hp
  · rw [if_neg hix] at h
    cases hp : BlockParameter.parseWithState s
        (splitOnChar ',' (dev (BlockParameter.cmdFor cfg index length?))) with
    | error e => rw [hp] at h; cases h
    | ok out =>
        rw [hp] at h
        obtain ⟨vals2, s2⟩ := out
        dsimp only at h
        injection h with h1
        injection h1 with _ h2
        injection h2 with h3 _
        rw [← h3]
        exact BlockParameter.parseWithState_storedValue s _ vals2 s2 hp

/-- BlockParameter.set never touches the stored snapshot. -/
theorem BlockParameter.blockSetOp_storedValue (cfg : BlockCfg) (dev : String → String)
    (s : BlockState) (index : Int) (values : List PyVal) (s1 : BlockState)
    (tr : List Interaction)
    (h : BlockParameter.setOp cfg dev s index values = Except.ok (s1, tr)) :
    s1.storedValue = s.storedValue := by
  unfold BlockParameter.setOp at h
  cases hb : s.binding with
  | some b =>
      rw [hb] at h
      dsimp only at h
      cases hw : BlockParameter.setResolved cfg dev b index values with
      | error e => rw [hw] at h; cases h
      | ok wtr =>
          rw [hw] at h
          injection h with h1
          injection h1 with h2 _
          rw [← h2]
  | none =>
      rw [hb] at h
      dsimp only at h
      cases hc : blockConfigClassify (splitOnChar ','
          (dev (cfg.name ++ "? " ++ toString index ++ "," ++ toString values.length))).headI with
      | error e => rw [hc] at h; cases h
      | ok b =>
          rw [hc] at h
          dsimp only at h
          cases hw : BlockParameter.setResolved cfg dev b index values with
          | error e => rw [hw] at h; cases h
          | ok wtr =>
              rw [hw] at h
              injection h with h1
              injection h1 with h2 _
              rw [← h2]

/-- Any successful public BlockParameter call other than store leaves an
absent snapshot absent. -/
theorem BlockParameter.blockStep_nonstore_keeps_unstored (cfg : BlockCfg)
    (dev : String → String) (s : BlockState) (op : BlockOp) (s1 : BlockState)
    (tr : List Interaction) (hst : s.storedValue = none) (hop : op ≠ BlockOp.store)
    (h : BlockParameter.step cfg dev s op = Except.ok (s1, tr)) :
    s1.storedValue = none := by
  cases op with
  | get index length? =>
      unfold BlockParameter.step at h
      dsimp only at h
      cases hg : BlockParameter.getOp cfg dev s index length? with
      | error e => rw [hg] at h; cases h
      | ok out =>
          rw [hg] at h
          obtain ⟨vals, s2, tr2⟩ := out
          injection h with h1
          injection h1 with h2 _
          rw [← h2]
          rw [BlockParameter.blockGetOp_storedValue cfg dev s index length? vals s2 tr2 hg, hst]
  | set index values =>
      rw [BlockParameter.blockSetOp_storedValue cfg dev s index values s1 tr h, hst]
  | store => exact absurd rfl hop
  | restore =>
      unfold BlockParameter.step BlockParameter.restoreOp at h
      rw [hst] at h
      cases h

/-- A whole successful run of BlockParameter calls without store leaves an
absent snapshot absent. -/
theorem BlockParameter.blockRun_nonstore_keeps_unstored (cfg : BlockCfg)
    (dev : String → String) (ops : List BlockOp) :
    ∀ (s s1 : BlockState) (tr : List Interaction),
    s.storedValue = none → BlockOp.store ∉ ops →
    BlockParameter.run cfg dev s ops = Except.ok (s1, tr) → s1.storedValue = none := by
  induction ops with
  | nil =>
      intro s s1 tr hst _ h
      unfold BlockParameter.run at h
      injection h with h1
      injection h1 with h2 _
      rw [← h2]
      exact hst
  | cons op ops ih =>
      intro s s1 tr hst hops h
      unfold BlockParameter.run at h
      cases hs : BlockParameter.step cfg dev s op with
      | error e => rw [hs] at h; cases h
      | ok out =>
          rw [hs] at h
          obtain ⟨s2, tr2⟩ := out
          dsimp only at h
          cases hr : BlockParameter.run cfg dev s2 ops with
          | error e => rw [hr] at h; cases h
          | ok out2 =>
              rw [hr] at h
              obtain ⟨s3, tr3⟩ := out2
              injection h with h1
              injection h1 with h2 _
              subst h2
              have hop : op ≠ BlockOp.store := fun he => hops (he ▸ List.mem_cons_self op ops)
              have hst2 := BlockParameter.blockStep_nonstore_keeps_unstored cfg dev s op s2 tr2
                hst hop hs
              exact ih s2 s3 tr3 hst2 (fun hm => hops (List.mem_cons_of_mem op hm)) hr

/-- C10: on both scalar and vector endpoints, restore before any store always
fails with the NotStored error and no write is issued: a fresh endpoint has
no snapshot, every run of public calls that does not contain store keeps the
snapshot absent, and restore on an absent snapshot raises NotStored for
every device whatsoever — the error is produced before any wire interaction
(the result is the same constant for all transports and carries no
interaction). -/
theorem restore_before_store_fails :
    Parameter.init.storedValue = none ∧
    BlockParameter.init.storedValue = none ∧
    (∀ cfg dev s, s.storedValue = none →
        Parameter.restoreOp cfg dev s = Except.error ScpiErr.notStored) ∧
    (∀ cfg dev s, s.storedValue = none →
        BlockParameter.restoreOp cfg dev s = Except.error ScpiErr.notStored) ∧
    (∀ cfg dev s ops s1 tr, s.storedValue = none → ParamOp.store ∉ ops →
        Parameter.run cfg dev s ops = Except.ok (s1, tr) → s1.storedValue = none) ∧
    (∀ cfg dev s ops s1 tr, s.storedValue = none → BlockOp.store ∉ ops →
        BlockParameter.run cfg dev s ops = Except.ok (s1, tr) → s1.storedValue = none) := by
  refine ⟨rfl, rfl, ?_, ?_, ?_, ?_⟩
  · intro cfg dev s hst
    unfold Parameter.restoreOp
    rw [hst]
  · intro cfg dev s hst
    unfold BlockParameter.restoreOp
    rw [hst]
  · intro cfg dev s ops s1 tr hst hops h
    exact Parameter.run_nonstore_keeps_unstored cfg dev ops s s1 tr hst hops h
  · intro cfg dev s ops s1 tr hst hops h
    exact BlockParameter.blockRun_nonstore_keeps_unstored cfg dev ops s s1 tr hst hops h

/-- Witness for C10: restore on freshly constructed endpoints fails with
NotStored. -/
theorem restore_before_store_fails_witness :
    Parameter.restoreOp ⟨"P", false⟩ (fun _ => "1") Parameter.init =
      Except.error ScpiErr.notStored ∧
    BlockParameter.restoreOp ⟨"B", false⟩ (fun _ => "1") BlockParameter.init =
      Except.error ScpiErr.notStored :=
  ⟨restore_before_store_fails.2.2.1 ⟨"P", false⟩ (fun _ => "1") Parameter.init rfl,
   restore_before_store_fails.2.2.2.1 ⟨"B", false⟩ (fun _ => "1") BlockParameter.init rfl⟩
